import Mathlib

/-!
# Verification of the ChiMai_Tailieu literature-fetching scripts

Shallow embedding of the three Python scripts `fetch_literature.py`,
`fetch_literature_en.py`, `fetch_literature_fr.py` and proofs of the
frozen claims about them.  Strings are Lean `String`s (lists of Unicode
scalar values, matching Python `str`); files are lists of rows/lines;
the filesystem is an association list from path to contents; network
responses are explicit `Option`/`Except` parameters.
-/

namespace ChiMai

/-- The set of characters matched by Python's `\s` in a `str` pattern
(Unicode whitespace): `\t \n \v \f \r`, `\x1c`-`\x1f`, space, NEL,
NBSP, and the Unicode space separators. -/
def pySpaceChars : List Char :=
  ['\t', '\n', '\x0b', '\x0c', '\r', '\x1c', '\x1d', '\x1e', '\x1f', ' ',
   '\u0085', '\u00a0', '\u1680', '\u2000', '\u2001', '\u2002', '\u2003',
   '\u2004', '\u2005', '\u2006', '\u2007', '\u2008', '\u2009', '\u200a',
   '\u2028', '\u2029', '\u202f', '\u205f', '\u3000']

/-- Python `\s` as a character predicate. -/
def isPySpace (c : Char) : Bool := pySpaceChars.contains c

/-- Characters kept by the class `[0-9A-Za-z_\-\.]` used in
`sanitize_filename` of `fetch_literature.py` and `fetch_literature_en.py`. -/
def isKeepChar (c : Char) : Bool :=
  c.isAlphanum || c == '_' || c == '-' || c == '.'

/-- Python `\w` (word character).  On the ASCII range this is exactly
`[0-9A-Za-z_]`; Python's Unicode matching additionally accepts non-ASCII
alphanumerics, which this embedding does not model — every concrete input
evaluated through a `\w`-based definition below is pure ASCII, where the
embedding is exact. -/
def isPyWordChar (c : Char) : Bool := c.isAlphanum || c == '_'

/-- Characters kept by the class `[^\w\-_\.]` deletion in
`fetch_literature_fr.py`'s `sanitize_filename`. -/
def isKeepCharFr (c : Char) : Bool :=
  isPyWordChar c || c == '-' || c == '.'

/-- `re.sub(r'\s+', '_', s)`: replace each maximal run of whitespace by a
single underscore.  The flag records whether we are inside a run whose
underscore has already been emitted. -/
def collapseWsAux : Bool → List Char → List Char
  | _, [] => []
  | inRun, c :: cs =>
    if isPySpace c then
      if inRun then collapseWsAux true cs
      else '_' :: collapseWsAux true cs
    else c :: collapseWsAux false cs

/-- `re.sub(r'\s+', '_', s)` on a character list. -/
def collapseWs (l : List Char) : List Char := collapseWsAux false l

/-- `sanitize_filename` of `fetch_literature.py` (lines 63-66) and
`fetch_literature_en.py` (lines 49-52), whose bodies are identical:
whitespace runs to `_`, delete characters outside `[0-9A-Za-z_\-\.]`,
truncate to 200 characters. -/
def sanitize_filename (s : String) : String :=
  String.mk (((collapseWs s.data).filter isKeepChar).take 200)

/-- `sanitize_filename` of `fetch_literature_fr.py` (lines 49-52):
whitespace runs to `_`, delete characters outside `[\w\-_\.]`,
and NO truncation. -/
def sanitize_filename_fr (s : String) : String :=
  String.mk ((collapseWs s.data).filter isKeepCharFr)

/- ### Helper lemmas for sanitization -/

theorem mem_collapseWsAux_not_space {c : Char} :
    ∀ (l : List Char) (b : Bool), c ∈ collapseWsAux b l → isPySpace c = false := by
  intro l
  induction l with
  | nil => intro b h; simp [collapseWsAux] at h
  | cons d ds ih =>
    intro b h
    cases hd : isPySpace d with
    | true =>
      cases b with
      | true =>
        simp only [collapseWsAux, hd, if_true] at h
        exact ih true h
      | false =>
        simp [collapseWsAux, hd] at h
        rcases h with h | h
        · subst h; decide
        · exact ih true h
    | false =>
      simp [collapseWsAux, hd] at h
      rcases h with h | h
      · subst h; exact hd
      · exact ih false h

theorem collapseWsAux_of_no_space :
    ∀ (l : List Char) (b : Bool), (∀ c ∈ l, isPySpace c = false) →
      collapseWsAux b l = l := by
  intro l
  induction l with
  | nil => intro b _; rfl
  | cons d ds ih =>
    intro b h
    have hd : isPySpace d = false := h d (by simp)
    have hds : ∀ c ∈ ds, isPySpace c = false := fun c hc => h c (by simp [hc])
    simp [collapseWsAux, hd, ih false hds]

theorem keep_not_space {c : Char} (h : isKeepChar c = true) : isPySpace c = false := by
  by_contra hc
  have hs : isPySpace c = true := by
    cases hx : isPySpace c
    · exact absurd hx hc
    · rfl
  have hmem : c ∈ pySpaceChars := by
    simpa [isPySpace, List.contains_iff_exists_mem_beq] using hs
  have : ∀ d ∈ pySpaceChars, isKeepChar d = false := by decide
  have := this c hmem
  rw [h] at this
  exact Bool.true_eq_false.mp this

theorem keepFr_not_space {c : Char} (h : isKeepCharFr c = true) : isPySpace c = false := by
  by_contra hc
  have hs : isPySpace c = true := by
    cases hx : isPySpace c
    · exact absurd hx hc
    · rfl
  have hmem : c ∈ pySpaceChars := by
    simpa [isPySpace, List.contains_iff_exists_mem_beq] using hs
  have : ∀ d ∈ pySpaceChars, isKeepCharFr d = false := by decide
  have := this c hmem
  rw [h] at this
  exact Bool.true_eq_false.mp this

theorem sanitize_filename_chars (s : String) :
    ∀ c ∈ (sanitize_filename s).data, isKeepChar c = true := by
  intro c hc
  simp only [sanitize_filename] at hc
  have h1 : c ∈ ((collapseWs s.data).filter isKeepChar) :=
    List.mem_of_mem_take hc
  exact (List.mem_filter.mp h1).2

theorem sanitize_filename_length (s : String) :
    (sanitize_filename s).length ≤ 200 := by
  simp only [sanitize_filename, String.length]
  calc (((collapseWs s.data).filter isKeepChar).take 200).length
      ≤ 200 := by
        rw [List.length_take]
        exact min_le_left _ _

theorem sanitize_filename_idem (s : String) :
    sanitize_filename (sanitize_filename s) = sanitize_filename s := by
  have hchars := sanitize_filename_chars s
  set r := sanitize_filename s with hr
  have hnospace : ∀ c ∈ r.data, isPySpace c = false :=
    fun c hc => keep_not_space (hchars c hc)
  have hkeep : ∀ c ∈ r.data, isKeepChar c = true := hchars
  have h1 : collapseWs r.data = r.data := collapseWsAux_of_no_space r.data false hnospace
  have h2 : (r.data).filter isKeepChar = r.data := List.filter_eq_self.mpr hkeep
  have h3 : (r.data).take 200 = r.data := by
    rw [hr]
    simp only [sanitize_filename, String.data]
    rw [List.take_take]
    norm_num
  show String.mk (((collapseWs r.data).filter isKeepChar).take 200) = r
  rw [h1, h2, h3]

theorem sanitize_filename_fr_idem (s : String) :
    sanitize_filename_fr (sanitize_filename_fr s) = sanitize_filename_fr s := by
  set r := sanitize_filename_fr s with hr
  have hkeep : ∀ c ∈ r.data, isKeepCharFr c = true := by
    intro c hc
    simp only [hr, sanitize_filename_fr] at hc
    exact (List.mem_filter.mp hc).2
  have hnospace : ∀ c ∈ r.data, isPySpace c = false :=
    fun c hc => keepFr_not_space (hkeep c hc)
  have h1 : collapseWs r.data = r.data := collapseWsAux_of_no_space r.data false hnospace
  have h2 : (r.data).filter isKeepCharFr = r.data := List.filter_eq_self.mpr hkeep
  show String.mk ((collapseWs r.data).filter isKeepCharFr) = r
  rw [h1, h2]

/- ### Further Python string helpers -/

/-- Python `str.strip()`: drop leading and trailing whitespace. -/
def pyStripChars (l : List Char) : List Char :=
  ((l.dropWhile isPySpace).reverse.dropWhile isPySpace).reverse

/-- Python `str.strip()` on a `String`. -/
def pyStripS (s : String) : String := String.mk (pyStripChars s.data)

/-- Python `str.split()` with no separator: the maximal runs of
non-whitespace characters, in order. -/
def pyWordsAux : List Char → List Char → List (List Char)
  | [], acc => if acc.isEmpty then [] else [acc.reverse]
  | c :: cs, acc =>
    if isPySpace c then
      if acc.isEmpty then pyWordsAux cs [] else acc.reverse :: pyWordsAux cs []
    else pyWordsAux cs (c :: acc)

/-- Python `str.split()` with no separator. -/
def pyWords (l : List Char) : List (List Char) := pyWordsAux l []

/-- Python `str.lower()`; exact on the ASCII range, which is all the
headings compared below consist of. -/
def pyLower (s : String) : String := String.mk (s.data.map Char.toLower)

/-- Python `str.split(sep)` for a one-character separator: split at every
occurrence, keeping empty parts (`''.split(';') == ['']`). -/
def splitOnCharAux (sep : Char) : List Char → List Char → List (List Char)
  | [], acc => [acc.reverse]
  | c :: cs, acc =>
    if c == sep then acc.reverse :: splitOnCharAux sep cs []
    else splitOnCharAux sep cs (c :: acc)

/-- Python `str.split(sep)` on a `String`. -/
def pySplitChar (s : String) (sep : Char) : List String :=
  (splitOnCharAux sep s.data []).map String.mk

/-- `re.sub(r'\W+', '_', title)`: replace each maximal run of non-word
characters by a single underscore. -/
def collapseNonWordAux : Bool → List Char → List Char
  | _, [] => []
  | inRun, c :: cs =>
    if isPyWordChar c then c :: collapseNonWordAux false cs
    else if inRun then collapseNonWordAux true cs
    else '_' :: collapseNonWordAux true cs

/-- `short = re.sub(r'\W+', '_', title)[:50]` (fetch_literature.py line
285, fetch_literature_en.py line 377). -/
def title_short (title : String) : String :=
  String.mk ((collapseNonWordAux false title.data).take 50)

/- ### Filename builder of fetch_literature.py / fetch_literature_en.py -/

/-- `authors_s.split(';')[0].strip().split()[-1] if authors_s else 'anon'`
(fetch_literature.py line 284, fetch_literature_en.py line 376): the last
whitespace-separated word of the first `;`-separated author, or `anon`
when the authors string is empty.  `none` models the `IndexError` Python
raises when the first author part is whitespace-only. -/
def last_author_of (authors_s : String) : Option String :=
  if authors_s = "" then some "anon"
  else
    match (pyWords (pyStripChars (((pySplitChar authors_s ';').headD "").data))).getLast? with
    | some w => some (String.mk w)
    | none => none

/-- `filename_base = f"{year}_{last_author}_{short}" if year else
f"{last_author}_{short}"` (line 286/378), before sanitization. -/
def raw_base (authors_s title year : String) : Option String :=
  (last_author_of authors_s).map (fun la =>
    if year ≠ "" then year ++ "_" ++ la ++ "_" ++ title_short title
    else la ++ "_" ++ title_short title)

/-- `filename_base = sanitize_filename(filename_base)` (line 287/379). -/
def filename_base (authors_s title year : String) : Option String :=
  (raw_base authors_s title year).map sanitize_filename

/-- `pdf_name = filename_base + '.pdf'` (line 288/380). -/
def pdf_name (authors_s title year : String) : Option String :=
  (filename_base authors_s title year).map (fun b => b ++ ".pdf")

/- ### CrossRef item normalization (fetch_literature.py lines 245-263) -/

/-- One entry of a CrossRef item's `author` list. -/
structure CrossrefAuthor where
  given : String
  family : String
deriving DecidableEq

/-- The fields of a CrossRef-shaped item that the scripts read. `issued`
models `issued.date-parts[0][0]` (a year or `None`). -/
structure CrossrefItem where
  DOI : String
  title : List String
  author : List CrossrefAuthor
  issued : Option Nat
  containerTitle : List String
  URL : String
  abstractText : String
deriving DecidableEq

/-- `name = ' '.join(filter(None, [a.get('given',''), a.get('family','')])).strip()`. -/
def authorName (a : CrossrefAuthor) : String :=
  pyStripS (String.intercalate " " (([a.given, a.family]).filter (fun x => x != "")))

/-- `authors_s`: the first 6 authors' nonempty names joined with `'; '`
(lines 250-255/335-339). -/
def authors_of (l : List CrossrefAuthor) : String :=
  String.intercalate "; " (((l.take 6).map authorName).filter (fun n => n != ""))

/-- `title = ' '.join(it.get('title', [])) if it.get('title') else ''`. -/
def title_of (t : List String) : String :=
  if t.isEmpty then "" else String.intercalate " " t

/-- `year = it.get('issued',{}).get('date-parts',[[None]])[0][0] or ''`,
rendered as the string the f-string interpolates; `None` and `0` are
falsy in Python, giving `''`. -/
def crossrefYearStr : Option Nat → String
  | none => ""
  | some y => if y = 0 then "" else toString y

/-- The `.pdf` filename the main/en scripts derive for a CrossRef item. -/
def crossref_pdf_name (it : CrossrefItem) : Option String :=
  pdf_name (authors_of it.author) (title_of it.title) (crossrefYearStr it.issued)

/- ### Claim C1 -/

/-- C1 (amended): `sanitize_filename` as defined identically in
`fetch_literature.py` and `fetch_literature_en.py` is idempotent, returns
at most 200 characters, and every returned character lies in
`[0-9A-Za-z_.-]`.  The `fetch_literature_fr.py` variant is idempotent as
well, but performs no truncation, so its result can exceed 200
characters (see the counterexample). -/
theorem C1_sanitize_filename_props (s : String) :
    sanitize_filename (sanitize_filename s) = sanitize_filename s ∧
    (sanitize_filename s).length ≤ 200 ∧
    (sanitize_filename s).data.all isKeepChar = true ∧
    sanitize_filename_fr (sanitize_filename_fr s) = sanitize_filename_fr s :=
  ⟨sanitize_filename_idem s, sanitize_filename_length s,
   List.all_eq_true.mpr (fun c hc => sanitize_filename_chars s c hc),
   sanitize_filename_fr_idem s⟩

/-- The 201-character string `aaa…a`. -/
def caC1 : String := String.mk (List.replicate 201 'a')

/-- C1 counterexample: `fetch_literature_fr.py`'s `sanitize_filename`
returns 201 characters on a 201-character input, so the claim's 200
character bound fails for that variant. -/
theorem C1_counterexample :
    (sanitize_filename_fr caC1).length = 201 ∧
    ¬ (sanitize_filename_fr caC1).length ≤ 200 := by
  have hchars : ∀ c ∈ caC1.data, c = 'a' := by
    intro c hc
    exact List.eq_of_mem_replicate hc
  have h1 : collapseWs caC1.data = caC1.data :=
    collapseWsAux_of_no_space _ _ (fun c hc => by rw [hchars c hc]; decide)
  have h2 : caC1.data.filter isKeepCharFr = caC1.data :=
    List.filter_eq_self.mpr (fun c hc => by rw [hchars c hc]; decide)
  have heq : sanitize_filename_fr caC1 = caC1 := by
    show String.mk ((collapseWs caC1.data).filter isKeepCharFr) = caC1
    rw [h1, h2]
  have hlen : (sanitize_filename_fr caC1).length = 201 := by
    rw [heq]
    show (List.replicate 201 'a').length = 201
    exact List.length_replicate _ _
  exact ⟨hlen, by rw [hlen]; decide⟩

/- ### Claim C5 -/

/-- C5 (confirmed): a CrossRef-shaped item with title list joining to
`Foo Bar`, issued year 2020 and sole author family `Smith` (empty given
name) yields the derived filename `2020_Smith_Foo_Bar.pdf`. -/
theorem C5_crossref_filename :
    crossref_pdf_name
      { DOI := "10.1/x", title := ["Foo Bar"],
        author := [{ given := "", family := "Smith" }],
        issued := some 2020, containerTitle := [], URL := "",
        abstractText := "" }
      = some "2020_Smith_Foo_Bar.pdf" := by decide

/- ### Claim C9 -/

/-- C9 (amended): with an empty authors string the surname component is
the literal `anon`; with an empty year the filename base (before
sanitization) is `{surname}_{title50}`, with no year component; with
empty authors and empty year it is `anon_{title50}`, whose first
character is `a`, not an underscore.  (The original claim's blanket "no
leading underscore" fails when the surname itself begins with `_`; see
the counterexample.) -/
theorem C9_filename_fallbacks :
    last_author_of "" = some "anon" ∧
    (∀ a t la, last_author_of a = some la →
      raw_base a t "" = some (la ++ "_" ++ title_short t)) ∧
    (∀ t, raw_base "" t "" = some ("anon" ++ "_" ++ title_short t)) ∧
    (∀ t b, raw_base "" t "" = some b → b.data.head? = some 'a') := by
  refine ⟨rfl, ?_, ?_, ?_⟩
  · intro a t la h
    simp [raw_base, h]
  · intro t
    simp [raw_base, last_author_of]
  · intro t b h
    simp [raw_base, last_author_of] at h
    subst h
    rfl

/-- C9 witness: the amended theorem applied at the authors string
`Smith`, title `T`, empty year. -/
theorem C9_witness :
    raw_base "Smith" "T" "" = some ("Smith" ++ "_" ++ title_short "T") :=
  C9_filename_fallbacks.2.1 "Smith" "T" "Smith" (by decide)

/-- C9 counterexample: a record whose authors string is `_x` and whose
year is empty gets the filename base `_x_T`, which begins with an
underscore — refuting the claim's "no leading underscore". -/
theorem C9_counterexample :
    raw_base "_x" "T" "" = some "_x_T" ∧ "_x_T".data.head? = some '_' := by
  decide

/- ### Persistence layer -/

/-- Python `str.startswith` (exact prefix test). -/
def pyStartsWith (s pre : String) : Bool := pre.data.isPrefixOf s.data

/-- Python `str.endswith` (exact suffix test). -/
def pyEndsWith (s suf : String) : Bool := suf.data.isSuffixOf s.data

/-- Header row of `metadata.csv` (fetch_literature.py line 77,
fetch_literature_en.py line 62). -/
def metadataHeader : List String :=
  ["filename", "title", "authors", "year", "journal", "doi", "url",
   "abstract", "language"]

/-- Header row of `summary.csv` (line 84 / line 69). -/
def summaryHeader : List String :=
  ["filename", "objective", "methods", "main_findings", "relevance_notes"]

/-- `append_metadata` of fetch_literature.py lines 72-78 and
fetch_literature_en.py lines 58-63 (identical behaviour; the main
variant's unused `exists` binding has no effect): the file is its list
of CSV rows; opening in append mode creates it, and
`os.path.getsize(...) == 0` holds exactly when it has no rows, in which
case the header row is written before the record row. -/
def append_metadata (file : List (List String)) (row : List String) :
    List (List String) :=
  if file.isEmpty then file ++ [metadataHeader, row] else file ++ [row]

/-- `append_summary` (lines 80-85 / 65-70), same header logic. -/
def append_summary (file : List (List String)) (row : List String) :
    List (List String) :=
  if file.isEmpty then file ++ [summaryHeader, row] else file ++ [row]

/-- `append_urls` (lines 68-70 / 54-56): one tab-separated line per call,
no header, no condition. -/
def append_urls (file : List String) (url preferred : String) : List String :=
  file ++ [url ++ "\t" ++ preferred]

/-- The three output stores (`urls.txt`, `metadata.csv`, `summary.csv`)
as lists of lines/rows. -/
structure Stores where
  urls : List String
  metadata : List (List String)
  summary : List (List String)
deriving DecidableEq

/-- A normalized record as the main script's per-item loop holds it just
before the persistence calls (fetch_literature.py lines 245-292). -/
structure MainRecord where
  pdf_name : String
  title : String
  authors_s : String
  year : String
  journal : String
  doi : String
  preferred_url : String
  abstractText : String
deriving DecidableEq

/-- The metadata row of line 296 (the trailing `''` is the language
field; fetch_literature_en.py line 387 writes `'en'` there instead). -/
def metadata_row (r : MainRecord) : List String :=
  [r.pdf_name, r.title, r.authors_s, r.year, r.journal, r.doi,
   r.preferred_url, r.abstractText, ""]

/-- The summary row of line 297/388. -/
def summary_row (r : MainRecord) : List String :=
  [r.pdf_name, "", "", "", ""]

/-- fetch_literature.py lines 291-297 (fetch_literature_en.py lines
383-388): append to `urls.txt` only when the preferred URL is nonempty,
then unconditionally to metadata and summary. -/
def persist_record (st : Stores) (r : MainRecord) : Stores :=
  { urls :=
      if r.preferred_url ≠ "" then append_urls st.urls r.preferred_url r.pdf_name
      else st.urls,
    metadata := append_metadata st.metadata (metadata_row r),
    summary := append_summary st.summary (summary_row r) }

/- ### Filesystem and downloaders -/

/-- An HTTP response: `content-type` header and raw body. -/
structure HttpResp where
  contentType : String
  body : String
deriving DecidableEq

/-- The filesystem: path-to-contents associations; later writes shadow
earlier entries. -/
abbrev FS := List (String × String)

/-- Contents at a path (`none` = the path does not exist). -/
def getFile (fs : FS) (p : String) : Option String :=
  (fs.find? (fun e => e.1 == p)).map (fun e => e.2)

/-- Write (or overwrite) a file. -/
def setFile (fs : FS) (p v : String) : FS := (p, v) :: fs

/-- `download_file` of fetch_literature.py lines 98-107 and
fetch_literature_en.py lines 122-136: on a successful GET (`some r`)
write the raw body to `outpath` — with no content-type or existence
check — and return `True`; an exception (`none`) returns `False` with
nothing written. -/
def download_file (fs : FS) (outpath : String) (resp : Option HttpResp) :
    FS × Bool :=
  match resp with
  | some r => (setFile fs outpath r.body, true)
  | none => (fs, false)

/-- `download_pdf` of fetch_literature_fr.py lines 128-142: writes
`References/<filename>` only when the response's content type starts
with `application/pdf` (and performs no existence check); otherwise,
or on exception, writes nothing. -/
def download_pdf (fs : FS) (filename : String) (resp : Option HttpResp) :
    FS × Bool :=
  match resp with
  | some r =>
    if pyStartsWith r.contentType "application/pdf" then
      (setFile fs ("References/" ++ filename) r.body, true)
    else (fs, false)
  | none => (fs, false)

/-- The per-record download step of fetch_literature.py lines 299-323:
if a direct `pdf_url` is known, download it unless `pdf_path` already
exists (an existing file sets `downloaded = True`); if nothing was
downloaded and the record has a DOI, look the DOI up in the Sci-Hub
results and download that, again only when `pdf_path` does not exist.
`net` maps a URL to its response (`none` = exception). -/
def main_try_download (fs : FS) (pdf_path : String) (pdf_url : Option String)
    (doi : String) (scihub_items : List (String × String))
    (net : String → Option HttpResp) : FS :=
  let step1 : FS × Bool :=
    match pdf_url with
    | some u =>
      if (getFile fs pdf_path).isSome then (fs, true)
      else download_file fs pdf_path (net u)
    | none => (fs, false)
  if !step1.2 && doi != "" then
    match (scihub_items.find? (fun s => s.1 == doi)).map (fun s => s.2) with
    | some su =>
      if su != "" && (getFile step1.1 pdf_path).isNone then
        (download_file step1.1 pdf_path (net su)).1
      else step1.1
    | none => step1.1
  else step1.1

/-- The per-record download step of fetch_literature_en.py lines
390-411: `if pdf_url: … elif doi: …`, each branch downloading only when
`pdf_path` does not exist. -/
def en_try_download (fs : FS) (pdf_path : String) (pdf_url : Option String)
    (doi : String) (scihub_items : List (String × String))
    (net : String → Option HttpResp) : FS :=
  match pdf_url with
  | some u =>
    if (getFile fs pdf_path).isNone then (download_file fs pdf_path (net u)).1
    else fs
  | none =>
    if doi != "" then
      match (scihub_items.find? (fun s => s.1 == doi)).map (fun s => s.2) with
      | some su =>
        if su != "" && (getFile fs pdf_path).isNone then
          (download_file fs pdf_path (net su)).1
        else fs
      | none => fs
    else fs

/- ### fetch_literature_fr.py `process_items` (lines 144-187) -/

/-- The CrossRef item fields fetch_literature_fr.py reads; `printYear` /
`onlineYear` model `published-print` / `published-online`
`date-parts[0][0]`. -/
structure FrItem where
  title : List String
  DOI : String
  author : List CrossrefAuthor
  printYear : Option Nat
  onlineYear : Option Nat
  containerTitle : List String
deriving DecidableEq

/-- Python truthiness of a year value (`None` and `0` are falsy). -/
def truthyYear : Option Nat → Option Nat
  | some 0 => none
  | some y => some y
  | none => none

/-- `year = …published-print… or …published-online… or ''` (lines
164-165), as the string csv / the f-string render it. -/
def frYearStr (it : FrItem) : String :=
  match truthyYear it.printYear with
  | some y => toString y
  | none =>
    match truthyYear it.onlineYear with
    | some y => toString y
    | none => ""

/-- `'; '.join([f"{given} {family}".strip() for a in authors])` (lines
162-163; note: all authors, space always inserted, no empty filtering —
unlike the main variant). -/
def frAuthorsStr (l : List CrossrefAuthor) : String :=
  String.intercalate "; " (l.map (fun a => pyStripS (a.given ++ " " ++ a.family)))

/-- `item.get(k, [''])[0] if item.get(k) else ''`. -/
def frFirstOrEmpty (t : List String) : String := t.headD ""

/-- `url = f"https://doi.org/{doi}" if doi else ''` (line 161). -/
def frUrlOf (it : FrItem) : String :=
  if it.DOI ≠ "" then "https://doi.org/" ++ it.DOI else ""

/-- The metadata row written by line 172 (no header, six fields). -/
def fr_meta_row (it : FrItem) : List String :=
  [frFirstOrEmpty it.title, frAuthorsStr it.author, frYearStr it,
   frFirstOrEmpty it.containerTitle, it.DOI, frUrlOf it]

/-- The summary row written by line 175. -/
def fr_sum_row (it : FrItem) : List String :=
  [frFirstOrEmpty it.title, frUrlOf it]

/-- Python `sub in s` substring test. -/
def listContainsSub (pat : List Char) : List Char → Bool
  | [] => pat.isEmpty
  | c :: cs => pat.isPrefixOf (c :: cs) || listContainsSub pat cs

/-- Python `sub in s` on `String`s. -/
def strContainsSub (s pat : String) : Bool := listContainsSub pat.data s.data

/-- `doi.split('/')[-1]`. -/
def doiLastPart (doi : String) : String := (pySplitChar doi '/').getLastD ""

/-- `'/'.join(doi.split('/')[:-1])`. -/
def doiInit (doi : String) : String :=
  String.intercalate "/" ((pySplitChar doi '/').dropLast)

/-- The chained conditional pdf-url construction of lines 181-183. -/
def frPdfUrl (url doi : String) : Option String :=
  if strContainsSub url "sciencedirect" then
    some ("https://www.sciencedirect.com/science/article/pii/" ++ doi)
  else if strContainsSub url "asm.org" then
    some ("https://journals.asm.org/doi/pdf/10.1128/" ++ doiLastPart doi)
  else if strContainsSub url "oup.com" then
    some ("https://academic.oup.com/" ++ doiInit doi ++ "/article-pdf/" ++
      doiLastPart doi ++ "/" ++ doiLastPart doi ++ ".pdf")
  else none

/-- The filename of line 180:
`sanitize_filename(f"{year}_{authors.split(';')[0] if authors else 'Unknown'}_{title[:50]}.pdf")`. -/
def frFilename (year authors title : String) : String :=
  sanitize_filename_fr (year ++ "_" ++
    (if authors ≠ "" then (pySplitChar authors ';').headD "" else "Unknown") ++
    "_" ++ String.mk (title.data.take 50) ++ ".pdf")

/-- One iteration of the `for item in items` loop of `process_items`
(fetch_literature_fr.py lines 158-185), acting on the three stores and
the filesystem.  The URL dedup check re-reads `urls.txt` and strips each
line; the store holds the file's lines.  Metadata and summary rows are
written with no header logic.  The download is attempted whenever a DOI
is present and a publisher pattern matches the record's URL — with no
check that the target file already exists. -/
def process_item_fr (st : Stores) (fs : FS) (it : FrItem)
    (net : String → Option HttpResp) : Stores × FS :=
  let url := frUrlOf it
  let urls1 :=
    if url != "" && !((st.urls.map pyStripS).contains url) then st.urls ++ [url]
    else st.urls
  let md1 := st.metadata ++ [fr_meta_row it]
  let sm1 := st.summary ++ [fr_sum_row it]
  let fs1 :=
    if it.DOI ≠ "" then
      match frPdfUrl url it.DOI with
      | some pu =>
        (download_pdf fs
          (frFilename (frYearStr it) (frAuthorsStr it.author)
            (frFirstOrEmpty it.title)) (net pu)).1
      | none => fs
    else fs
  (⟨urls1, md1, sm1⟩, fs1)

/- ### Claim C2 -/

/-- C2 (amended): in fetch_literature.py and fetch_literature_en.py, one
append to an empty metadata (resp. summary) file writes the fixed header
row followed by the record row; every append to a non-empty file writes
only the record row, so after a first append the header is never
repeated.  The fr variant's `process_items`, however, writes metadata
and summary rows with no header logic at all (see the counterexample). -/
theorem C2_header_once :
    (∀ r, append_metadata [] r = [metadataHeader, r]) ∧
    (∀ f r, f ≠ [] → append_metadata f r = f ++ [r]) ∧
    (∀ r r', append_metadata (append_metadata [] r) r' = [metadataHeader, r, r']) ∧
    (∀ r, append_summary [] r = [summaryHeader, r]) ∧
    (∀ f r, f ≠ [] → append_summary f r = f ++ [r]) ∧
    (∀ r r', append_summary (append_summary [] r) r' = [summaryHeader, r, r']) := by
  refine ⟨fun r => rfl, ?_, fun r r' => rfl, fun r => rfl, ?_, fun r r' => rfl⟩
  · intro f r hf
    cases f with
    | nil => exact absurd rfl hf
    | cons a as => rfl
  · intro f r hf
    cases f with
    | nil => exact absurd rfl hf
    | cons a as => rfl

/-- C2 witness: the amended theorem applied to a one-row (non-empty)
metadata file. -/
theorem C2_witness :
    append_metadata [metadataHeader] ["a.pdf", "T", "", "", "", "", "", "", ""]
      = [metadataHeader] ++ [["a.pdf", "T", "", "", "", "", "", "", ""]] :=
  C2_header_once.2.1 [metadataHeader] ["a.pdf", "T", "", "", "", "", "", "", ""]
    (by decide)

/-- A CrossRef item with only a title, as fetch_literature_fr.py sees it. -/
def frItemT2 : FrItem :=
  { title := ["T2"], DOI := "", author := [], printYear := none,
    onlineYear := none, containerTitle := [] }

/-- C2 counterexample: in fetch_literature_fr.py, processing a record
against an *empty* metadata file writes exactly one row — the record
row — and no header row, refuting the claim for that variant. -/
theorem C2_counterexample :
    (process_item_fr ⟨[], [], []⟩ [] frItemT2 (fun _ => none)).1.metadata
      = [["T2", "", "", "", "", ""]] ∧
    (process_item_fr ⟨[], [], []⟩ [] frItemT2 (fun _ => none)).1.metadata.length = 1 := by
  decide

/- ### Claim C3 -/

/-- C3 (amended): in fetch_literature.py and fetch_literature_en.py, if a
file already exists at the record's target path, the per-record download
step changes nothing on the filesystem.  fetch_literature_fr.py's
`download_pdf`, called from `process_items`, performs no existence check
and overwrites an existing file whenever the response's content type is
`application/pdf` (see the counterexample). -/
theorem C3_no_overwrite :
    (∀ fs pdf_path pdf_url doi sci net,
      (getFile fs pdf_path).isSome = true →
      main_try_download fs pdf_path pdf_url doi sci net = fs) ∧
    (∀ fs pdf_path pdf_url doi sci net,
      (getFile fs pdf_path).isSome = true →
      en_try_download fs pdf_path pdf_url doi sci net = fs) := by
  constructor
  · intro fs p pu doi sci net h
    obtain ⟨v, hv⟩ := Option.isSome_iff_exists.mp h
    cases pu with
    | some u =>
      simp [main_try_download, hv]
    | none =>
      simp only [main_try_download]
      cases hf : (sci.find? (fun s => s.1 == doi)).map (fun s => s.2) with
      | none => simp [hf, hv]
      | some su => simp [hf, hv]
  · intro fs p pu doi sci net h
    obtain ⟨v, hv⟩ := Option.isSome_iff_exists.mp h
    cases pu with
    | some u =>
      simp [en_try_download, hv]
    | none =>
      simp only [en_try_download]
      cases hf : (sci.find? (fun s => s.1 == doi)).map (fun s => s.2) with
      | none => simp [hf, hv]
      | some su => simp [hf, hv]

/-- C3 witness: the amended theorem applied to a filesystem that already
holds the target file, with a live direct pdf URL. -/
theorem C3_witness :
    main_try_download [("References/a.pdf", "OLD")] "References/a.pdf"
      (some "http://x/a.pdf") "10.1/x" [("10.1/x", "http://s/a.pdf")]
      (fun _ => some ⟨"application/pdf", "NEW"⟩) = [("References/a.pdf", "OLD")] :=
  C3_no_overwrite.1 [("References/a.pdf", "OLD")] "References/a.pdf"
    (some "http://x/a.pdf") "10.1/x" [("10.1/x", "http://s/a.pdf")]
    (fun _ => some ⟨"application/pdf", "NEW"⟩) (by decide)

/-- A CrossRef item whose DOI makes the fr variant's publisher pattern
match (`'sciencedirect' in url`). -/
def frItemSd : FrItem :=
  { title := ["T"], DOI := "sciencedirect",
    author := [{ given := "A", family := "B" }],
    printYear := some 2020, onlineYear := none, containerTitle := [] }

/-- C3 counterexample: fetch_literature_fr.py overwrites the existing
file `References/2020_A_B_T.pdf` (old contents `OLD`) with the new
response body `NEW` while processing a record whose target is that very
path — the claim fails for the fr variant. -/
theorem C3_counterexample :
    getFile
      (process_item_fr ⟨[], [], []⟩ [("References/2020_A_B_T.pdf", "OLD")]
        frItemSd (fun _ => some ⟨"application/pdf", "NEW"⟩)).2
      "References/2020_A_B_T.pdf" = some "NEW" ∧
    getFile [("References/2020_A_B_T.pdf", "OLD")] "References/2020_A_B_T.pdf"
      = some "OLD" := by
  decide

/- ### Claim C6 -/

/-- C6 (amended): the `download_file` of fetch_literature.py and
fetch_literature_en.py writes the raw response body to the target path
for every successful response, whatever its content type, and reports
success; fetch_literature_fr.py's `download_pdf`, by contrast, writes
the body only when the content type starts with `application/pdf`, and
leaves the filesystem untouched otherwise (see the counterexample). -/
theorem C6_download_writes :
    (∀ fs outpath r, getFile (download_file fs outpath (some r)).1 outpath
        = some r.body ∧
      (download_file fs outpath (some r)).2 = true) ∧
    (∀ fs fn r, pyStartsWith r.contentType "application/pdf" = true →
      getFile (download_pdf fs fn (some r)).1 ("References/" ++ fn)
        = some r.body) ∧
    (∀ fs fn r, pyStartsWith r.contentType "application/pdf" = false →
      download_pdf fs fn (some r) = (fs, false)) := by
  refine ⟨?_, ?_, ?_⟩
  · intro fs outpath r
    constructor
    · simp [download_file, setFile, getFile, List.find?]
    · rfl
  · intro fs fn r h
    simp [download_pdf, h, setFile, getFile, List.find?]
  · intro fs fn r h
    simp [download_pdf, h]

/-- C6 witness: the amended theorem's fr clause applied to a PDF
response. -/
theorem C6_witness :
    getFile (download_pdf [] "f.pdf" (some ⟨"application/pdf", "BODY"⟩)).1
      ("References/" ++ "f.pdf") = some "BODY" :=
  C6_download_writes.2.1 [] "f.pdf" ⟨"application/pdf", "BODY"⟩ (by decide)

/-- C6 counterexample: the fr variant's downloader, given a target path
that does not exist and an HTML response, writes nothing — refuting
"writes the raw response body regardless of content type" for that
variant. -/
theorem C6_counterexample :
    download_pdf [] "f.pdf" (some ⟨"text/html", "ERROR PAGE"⟩) = ([], false) ∧
    getFile ([] : FS) "References/f.pdf" = none := by
  decide

/- ### Claim C8 -/

/-- C8 (amended): in the main/en scripts every processed record is
appended exactly once to the metadata table and exactly once to the
summary table, with no deduplication against existing contents — so
re-processing the same record appends a duplicate row — while the URL
list receives a line only when the record's preferred URL is nonempty.
In the fr variant the metadata and summary rows are likewise always
appended, but a URL already present (stripped) in `urls.txt` is *not*
appended again. -/
theorem C8_persistence :
    (∀ st r, (persist_record st r).metadata =
      st.metadata ++ (if st.metadata.isEmpty then [metadataHeader] else [])
        ++ [metadata_row r]) ∧
    (∀ st r, (persist_record st r).summary =
      st.summary ++ (if st.summary.isEmpty then [summaryHeader] else [])
        ++ [summary_row r]) ∧
    (∀ st r, (persist_record st r).urls =
      if r.preferred_url ≠ "" then
        st.urls ++ [r.preferred_url ++ "\t" ++ r.pdf_name]
      else st.urls) ∧
    (∀ st r, st.metadata ≠ [] →
      (persist_record (persist_record st r) r).metadata =
        st.metadata ++ [metadata_row r, metadata_row r]) ∧
    (∀ st fs it net,
      (process_item_fr st fs it net).1.metadata = st.metadata ++ [fr_meta_row it] ∧
      (process_item_fr st fs it net).1.summary = st.summary ++ [fr_sum_row it]) ∧
    (∀ st fs it net, frUrlOf it ∈ st.urls.map pyStripS →
      (process_item_fr st fs it net).1.urls = st.urls) := by
  refine ⟨?_, ?_, ?_, ?_, ?_, ?_⟩
  · intro st r
    cases h : st.metadata with
    | nil => simp [persist_record, append_metadata, h]
    | cons a as => simp [persist_record, append_metadata, h]
  · intro st r
    cases h : st.summary with
    | nil => simp [persist_record, append_summary, h]
    | cons a as => simp [persist_record, append_summary, h]
  · intro st r
    by_cases h : r.preferred_url = ""
    · simp [persist_record, h]
    · simp [persist_record, h, append_urls]
  · intro st r h
    cases hm : st.metadata with
    | nil => exact absurd hm h
    | cons a as =>
      simp [persist_record, append_metadata, hm]
  · intro st fs it net
    exact ⟨rfl, rfl⟩
  · intro st fs it net h
    have hc : (st.urls.map pyStripS).contains (frUrlOf it) = true :=
      List.elem_iff.mpr h
    simp [process_item_fr, hc]
    intro hne
    simpa using h

/-- C8 witness: the dedup clause of the amended theorem applied to a
urls file already containing the record's DOI URL. -/
theorem C8_witness :
    (process_item_fr ⟨["https://doi.org/10.1/x"], [], []⟩ []
      { title := ["T"], DOI := "10.1/x", author := [], printYear := none,
        onlineYear := none, containerTitle := [] } (fun _ => none)).1.urls
      = ["https://doi.org/10.1/x"] :=
  C8_persistence.2.2.2.2.2 ⟨["https://doi.org/10.1/x"], [], []⟩ []
    { title := ["T"], DOI := "10.1/x", author := [], printYear := none,
      onlineYear := none, containerTitle := [] } (fun _ => none) (by decide)

/-- C8 counterexample: (i) a record with an empty preferred URL is not
appended to the URL store at all (zero, not one, appends across the
three stores); (ii) the fr variant skips a URL already present in
`urls.txt` — both refuting "appended exactly once to each of the three
stores, with no deduplication check". -/
theorem C8_counterexample :
    (persist_record ⟨[], [], []⟩
      { pdf_name := "a.pdf", title := "T", authors_s := "", year := "",
        journal := "", doi := "", preferred_url := "",
        abstractText := "" }).urls = [] ∧
    (process_item_fr ⟨["https://doi.org/10.1/y"], [], []⟩ []
      { title := ["T"], DOI := "10.1/y", author := [], printYear := none,
        onlineYear := none, containerTitle := [] } (fun _ => none)).1.urls
      = ["https://doi.org/10.1/y"] := by
  decide

/- ### Query operations and their error handling -/

/-- A Python exception as the scripts distinguish them:
`urllib.error.URLError` (network error) versus anything else. -/
inductive PyExn
  | urlError
  | otherError
deriving DecidableEq

/-- The `message` object of the decoded CrossRef JSON. -/
structure CrossrefMessage where
  items : List CrossrefItem
deriving DecidableEq

/-- The decoded CrossRef JSON; `message` may be absent. -/
structure CrossrefResponse where
  message : Option CrossrefMessage
deriving DecidableEq

/-- `query_crossref` of fetch_literature.py lines 87-96 and
fetch_literature_en.py lines 72-81: `net` is the outcome of the HTTP GET
plus JSON decode; only `URLError` is caught, and the caught case returns
Python `None` — not an empty list.  Other exceptions propagate. -/
def query_crossref (net : Except PyExn CrossrefResponse) :
    Except PyExn (Option CrossrefResponse) :=
  match net with
  | .ok d => .ok (some d)
  | .error .urlError => .ok none
  | .error .otherError => .error .otherError

/-- A PubMed summary already mapped to the record fields the script
builds; the XML field extraction is out of the spec's scope and treated
as an external collaborator. -/
structure PubmedItem where
  title : String
  authors : String
  year : String
  journal : String
  doi : String
  url : String
  abstractText : String
deriving DecidableEq

/-- `query_pubmed` of fetch_literature_en.py lines 84-120: `esearch` is
the id-list request (plus parse), `esummary` the summary request (plus
parse into items); an exception raised anywhere inside the `try` is
caught by `except Exception` and returns `[]`; when the id list is empty
the function falls off the end of the `try`, returning Python `None`
(modelled `none`). -/
def query_pubmed (esearch : Except PyExn (List String))
    (esummary : Except PyExn (List PubmedItem)) :
    Except PyExn (Option (List PubmedItem)) :=
  match esearch with
  | .error _ => .ok (some [])
  | .ok ids =>
    if ids.isEmpty then .ok none
    else
      match esummary with
      | .error _ => .ok (some [])
      | .ok docs => .ok (some docs)

/-- A LibGen search result as parsed from a mirror's HTML (the regex
scraping is out of the spec's scope). -/
structure LibgenItem where
  title : String
  authors : String
  year : String
  doi : String
  url : String
  pdf_url : String
deriving DecidableEq

/-- `query_libgen` of fetch_literature.py lines 110-155: try each of the
ten mirrors in order (`rs` lists the per-mirror outcome of request plus
parse); an exception moves on to the next mirror, a nonempty item list
is returned at once, and after the last mirror `[]` is returned. -/
def query_libgen (rs : List (Except PyExn (List LibgenItem))) :
    Except PyExn (List LibgenItem) :=
  match rs with
  | [] => .ok []
  | .error _ :: rest => query_libgen rest
  | .ok items :: rest => if items.isEmpty then query_libgen rest else .ok items

/-- The `query_libgen` in effect in fetch_literature_en.py — the second
definition (lines 215-244) shadows the first: one mirror, any exception
yields `[]`, and the parsed items (possibly empty) are returned
otherwise. -/
def query_libgen_en (r : Except PyExn (List LibgenItem)) :
    Except PyExn (List LibgenItem) :=
  match r with
  | .error _ => .ok []
  | .ok items => .ok items

/- ### Sci-Hub queries -/

/-- The Sci-Hub mirror list of fetch_literature.py lines 160-170. -/
def scihub_bases : List String :=
  ["https://sci-hub.se/", "https://sci-hub.ru/", "https://sci-hub.st/",
   "https://sci-hub.tw/", "https://sci-hub.hk/", "https://sci-hub.mn/",
   "https://sci-hub.ee/", "https://sci-hub.do/", "https://sci-hub.pl/"]

/-- The mirror list of fetch_literature_en.py line 250. -/
def scihub_bases_en : List String :=
  ["https://sci-hub.se/", "https://sci-hub.ru/", "https://sci-hub.st/"]

/-- Python `base.rstrip('/')`. -/
def pyRstripSlash (s : String) : String :=
  String.mk ((s.data.reverse.dropWhile (fun c => c == '/')).reverse)

/-- The relative-URL fixups of lines 186-190 / 266-270. -/
def normalize_pdf_url (u base : String) : String :=
  if pyStartsWith u "//" then "https:" ++ u
  else if pyStartsWith u "/" then pyRstripSlash base ++ u
  else u

/-- The inner mirror loop for one DOI (lines 175-194 / 255-274):
`resolve url` is the outcome of the GET, status check and pdf-link regex
for `url` (`none` means non-200, no match, or exception, all of which
move on to the next mirror); the first hit is normalized and returned. -/
def scihub_try_bases (doi : String) (bases : List String)
    (resolve : String → Option String) : Option String :=
  match bases with
  | [] => none
  | b :: rest =>
    match resolve (b ++ doi) with
    | some u => some (normalize_pdf_url u b)
    | none => scihub_try_bases doi rest resolve

/-- `query_scihub` of fetch_literature.py lines 158-195, with the
default `max_per_run=10` `main` calls it with: only
`(dois or [])[:10]` is iterated, falsy (empty) DOIs are skipped, and
each found DOI contributes one `{'doi', 'pdf_url'}` pair in order. -/
def query_scihub (dois : List String) (resolve : String → Option String) :
    List (String × String) :=
  (dois.take 10).filterMap (fun doi =>
    if doi = "" then none
    else (scihub_try_bases doi scihub_bases resolve).map (fun u => (doi, u)))

/-- `query_scihub` of fetch_literature_en.py lines 247-275
(`for doi in dois[:10]`). -/
def query_scihub_en (dois : List String) (resolve : String → Option String) :
    List (String × String) :=
  (dois.take 10).filterMap (fun doi =>
    if doi = "" then none
    else (scihub_try_bases doi scihub_bases_en resolve).map (fun u => (doi, u)))

/- ### Claim C4 -/

/-- C4 (amended): network failures never raise out of the query
operations: PubMed (either request failing) and LibGen (all mirrors
failing, or the single en mirror failing) return an empty item list;
CrossRef, however, returns Python `None` — its *callers* turn that into
an empty item list, but the operation itself does not return a list
(see the counterexample). -/
theorem C4_network_errors :
    (query_crossref (.error .urlError) = .ok none) ∧
    (∀ es, query_pubmed (.error .urlError) es = .ok (some [])) ∧
    (∀ ids, ids ≠ [] →
      query_pubmed (.ok ids) (.error .urlError) = .ok (some [])) ∧
    (∀ rs, (∀ r ∈ rs, r = .error PyExn.urlError) → query_libgen rs = .ok []) ∧
    (query_libgen_en (.error .urlError) = .ok []) := by
  refine ⟨rfl, fun es => rfl, ?_, ?_, rfl⟩
  · intro ids h
    cases ids with
    | nil => exact absurd rfl h
    | cons a as => rfl
  · intro rs h
    induction rs with
    | nil => rfl
    | cons r rest ih =>
      have hr : r = .error PyExn.urlError := h r (by simp)
      subst hr
      exact ih (fun x hx => h x (by simp [hx]))

/-- C4 witness: the amended theorem's PubMed and LibGen clauses applied
to a nonempty id list and a two-mirror all-failure run. -/
theorem C4_witness :
    query_pubmed (.ok ["31415"]) (.error .urlError) = .ok (some []) ∧
    query_libgen [.error .urlError, .error .urlError] = .ok [] :=
  ⟨C4_network_errors.2.2.1 ["31415"] (by decide),
   C4_network_errors.2.2.2.1 [.error .urlError, .error .urlError]
     (by
       intro r hr
       rcases List.mem_cons.mp hr with h | h
       · exact h
       · rcases List.mem_cons.mp h with h | h
         · exact h
         · exact absurd h (List.not_mem_nil r))⟩

/-- C4 counterexample: on a network error `query_crossref` returns
`None`, which in particular is not a response carrying an empty item
list — refuting "each source-query operation returns an empty list of
items" for CrossRef. -/
theorem C4_counterexample :
    query_crossref (.error .urlError) = .ok none ∧
    query_crossref (.error .urlError)
      ≠ .ok (some { message := some { items := [] } }) := by
  refine ⟨rfl, ?_⟩
  intro h
  simp [query_crossref] at h

/- ### Claim C10 -/

theorem mem_take_ten_of_mem_scihub {dois bases : List String}
    {resolve : String → Option String} {p : String × String}
    (h : p ∈ (dois.take 10).filterMap (fun doi =>
      if doi = "" then none
      else (scihub_try_bases doi bases resolve).map (fun u => (doi, u)))) :
    p.1 ∈ dois.take 10 := by
  rcases List.mem_filterMap.mp h with ⟨doi, hmem, heq⟩
  by_cases hd : doi = ""
  · simp [hd] at heq
  · rw [if_neg hd] at heq
    rcases Option.map_eq_some'.mp heq with ⟨u, _, hp⟩
    rw [← hp]
    exact hmem

/-- C10 (confirmed): both `query_scihub` implementations (main and en)
consult only the first 10 DOIs, so every DOI in the result list is among
the first 10 elements of the input list. -/
theorem C10_scihub_first_ten :
    (∀ dois resolve p, p ∈ query_scihub dois resolve → p.1 ∈ dois.take 10) ∧
    (∀ dois resolve p, p ∈ query_scihub_en dois resolve → p.1 ∈ dois.take 10) :=
  ⟨fun _ _ _ h => mem_take_ten_of_mem_scihub h,
   fun _ _ _ h => mem_take_ten_of_mem_scihub h⟩

/-- A concrete resolver: the first mirror has the PDF for DOI `d1`. -/
def resolveC10 (u : String) : Option String :=
  if u == "https://sci-hub.se/d1" then some "https://sci-hub.se/x.pdf" else none

/-- C10 witness: the theorem applied to a concrete run in which the
first mirror resolves the single DOI. -/
theorem C10_witness : ("d1" : String) ∈ (["d1"] : List String).take 10 :=
  C10_scihub_first_ten.1 ["d1"] resolveC10
    ("d1", "https://sci-hub.se/x.pdf") (by decide)

/- ### Keyword extraction (claim C7) -/

/-- `read_keywords` of fetch_literature.py lines 40-61 as the loop over
the file's (raw) lines, carrying the `in_vietnamese` flag and the `kws`
accumulator: the exact heading `## Tiếng Việt` opens (or re-opens) the
section, any other `##` line inside it breaks, empty lines, `#` lines
and lines ending with `:` are skipped, and a leading `-` is stripped. -/
def read_keywords_loop : List String → Bool → List String → List String
  | [], _, acc => acc.reverse
  | l :: ls, inVi, acc =>
    if pyStripS l == "## Tiếng Việt" then read_keywords_loop ls true acc
    else if pyStartsWith (pyStripS l) "##" && inVi then acc.reverse
    else if inVi then
      if pyStripS l == "" || pyStartsWith (pyStripS l) "#" then
        read_keywords_loop ls inVi acc
      else if pyEndsWith (pyStripS l) ":" then read_keywords_loop ls inVi acc
      else if pyStartsWith (pyStripS l) "-" then
        read_keywords_loop ls inVi
          (pyStripS (String.mk ((pyStripS l).data.drop 1)) :: acc)
      else read_keywords_loop ls inVi (pyStripS l :: acc)
    else read_keywords_loop ls inVi acc

/-- `read_keywords` on the lines of `keywords.md`. -/
def read_keywords (lines : List String) : List String :=
  read_keywords_loop lines false []

/-- `extract_english_keywords` of fetch_literature_en.py lines 30-47 as
the analogous loop: a line whose lowering starts with `## english` opens
(or re-opens) the section, a `## ` line inside it breaks, empty and `#`
lines are skipped, a leading `-` is stripped.  No `:` filtering. -/
def extract_en_loop : List String → Bool → List String → List String
  | [], _, acc => acc.reverse
  | l :: ls, inEng, acc =>
    if pyStartsWith (pyLower (pyStripS l)) "## english" then
      extract_en_loop ls true acc
    else if inEng then
      if pyStartsWith (pyStripS l) "## " then acc.reverse
      else if pyStripS l == "" || pyStartsWith (pyStripS l) "#" then
        extract_en_loop ls inEng acc
      else if pyStartsWith (pyStripS l) "-" then
        extract_en_loop ls inEng
          (pyStripS (String.mk ((pyStripS l).data.drop 1)) :: acc)
      else extract_en_loop ls inEng (pyStripS l :: acc)
    else extract_en_loop ls inEng acc

/-- `extract_english_keywords` on the lines of `keywords.md`. -/
def extract_english_keywords (lines : List String) : List String :=
  extract_en_loop lines false []

/-- `extract_french_keywords` of fetch_literature_fr.py lines 30-47: the
heading literal is the mojibake `## fran√ßais` exactly as in the source;
inside the section the loop additionally breaks on `---` lines and on
the first empty line after at least one keyword has been collected
(`s == '' and lines`). -/
def extract_fr_loop : List String → Bool → List String → List String
  | [], _, acc => acc.reverse
  | l :: ls, inFr, acc =>
    if pyStartsWith (pyLower (pyStripS l)) "## fran√ßais" then
      extract_fr_loop ls true acc
    else if inFr then
      if pyStartsWith (pyStripS l) "## " || pyStartsWith (pyStripS l) "---" ||
          (pyStripS l == "" && !acc.isEmpty) then acc.reverse
      else if pyStripS l == "" || pyStartsWith (pyStripS l) "#" then
        extract_fr_loop ls inFr acc
      else if pyStartsWith (pyStripS l) "-" then
        extract_fr_loop ls inFr
          (pyStripS (String.mk ((pyStripS l).data.drop 1)) :: acc)
      else extract_fr_loop ls inFr (pyStripS l :: acc)
    else extract_fr_loop ls inFr acc

/-- `extract_french_keywords` on the lines of `keywords.md`. -/
def extract_french_keywords (lines : List String) : List String :=
  extract_fr_loop lines false []

/- Claim-side (phase-split) characterizations: first locate the target
heading, then collect the section's cleaned lines until the variant's
break condition. -/

/-- The section body the claim describes for the main variant. -/
def spec_main_collect : List String → List String
  | [] => []
  | l :: ls =>
    if pyStripS l == "## Tiếng Việt" then spec_main_collect ls
    else if pyStartsWith (pyStripS l) "##" then []
    else if pyStripS l == "" || pyStartsWith (pyStripS l) "#" then
      spec_main_collect ls
    else if pyEndsWith (pyStripS l) ":" then spec_main_collect ls
    else if pyStartsWith (pyStripS l) "-" then
      pyStripS (String.mk ((pyStripS l).data.drop 1)) :: spec_main_collect ls
    else pyStripS l :: spec_main_collect ls

/-- Locate `## Tiếng Việt`, then collect; `[]` if the heading is absent. -/
def spec_read_keywords : List String → List String
  | [] => []
  | l :: ls =>
    if pyStripS l == "## Tiếng Việt" then spec_main_collect ls
    else spec_read_keywords ls

/-- The section body the claim describes for the en variant. -/
def spec_en_collect : List String → List String
  | [] => []
  | l :: ls =>
    if pyStartsWith (pyLower (pyStripS l)) "## english" then spec_en_collect ls
    else if pyStartsWith (pyStripS l) "## " then []
    else if pyStripS l == "" || pyStartsWith (pyStripS l) "#" then
      spec_en_collect ls
    else if pyStartsWith (pyStripS l) "-" then
      pyStripS (String.mk ((pyStripS l).data.drop 1)) :: spec_en_collect ls
    else pyStripS l :: spec_en_collect ls

/-- Locate the `## english` heading, then collect. -/
def spec_extract_english : List String → List String
  | [] => []
  | l :: ls =>
    if pyStartsWith (pyLower (pyStripS l)) "## english" then spec_en_collect ls
    else spec_extract_english ls

/-- The section body for the fr variant; `got` records whether a keyword
has already been collected (the blank-line break is live only then). -/
def spec_fr_collect : Bool → List String → List String
  | _, [] => []
  | got, l :: ls =>
    if pyStartsWith (pyLower (pyStripS l)) "## fran√ßais" then
      spec_fr_collect got ls
    else if pyStartsWith (pyStripS l) "## " || pyStartsWith (pyStripS l) "---" ||
        (pyStripS l == "" && got) then []
    else if pyStripS l == "" || pyStartsWith (pyStripS l) "#" then
      spec_fr_collect got ls
    else if pyStartsWith (pyStripS l) "-" then
      pyStripS (String.mk ((pyStripS l).data.drop 1)) :: spec_fr_collect true ls
    else pyStripS l :: spec_fr_collect true ls

/-- Locate the `## fran√ßais` heading, then collect. -/
def spec_extract_french : List String → List String
  | [] => []
  | l :: ls =>
    if pyStartsWith (pyLower (pyStripS l)) "## fran√ßais" then
      spec_fr_collect false ls
    else spec_extract_french ls

/- Equivalence of the loop embeddings with the phase-split descriptions. -/

theorem read_keywords_loop_true :
    ∀ (ls acc : List String),
      read_keywords_loop ls true acc = acc.reverse ++ spec_main_collect ls := by
  intro ls
  induction ls with
  | nil => intro acc; simp [read_keywords_loop, spec_main_collect]
  | cons l ls ih =>
    intro acc
    cases h1 : (pyStripS l == "## Tiếng Việt") with
    | true => simp [read_keywords_loop, spec_main_collect, h1, ih]
    | false =>
      cases h2 : pyStartsWith (pyStripS l) "##" with
      | true => simp [read_keywords_loop, spec_main_collect, h1, h2]
      | false =>
        cases h3 : (pyStripS l == "" || pyStartsWith (pyStripS l) "#") with
        | true => simp [read_keywords_loop, spec_main_collect, h1, h2, h3, ih]
        | false =>
          cases h4 : pyEndsWith (pyStripS l) ":" with
          | true => simp [read_keywords_loop, spec_main_collect, h1, h2, h3, h4, ih]
          | false =>
            cases h5 : pyStartsWith (pyStripS l) "-" with
            | true =>
              simp [read_keywords_loop, spec_main_collect, h1, h2, h3, h4, h5, ih]
            | false =>
              simp [read_keywords_loop, spec_main_collect, h1, h2, h3, h4, h5, ih]

theorem read_keywords_eq_spec (ls : List String) :
    read_keywords ls = spec_read_keywords ls := by
  show read_keywords_loop ls false [] = spec_read_keywords ls
  induction ls with
  | nil => rfl
  | cons l ls ih =>
    cases h1 : (pyStripS l == "## Tiếng Việt") with
    | true =>
      simp [read_keywords_loop, spec_read_keywords, h1, read_keywords_loop_true]
    | false => simp [read_keywords_loop, spec_read_keywords, h1, ih]

theorem extract_en_loop_true :
    ∀ (ls acc : List String),
      extract_en_loop ls true acc = acc.reverse ++ spec_en_collect ls := by
  intro ls
  induction ls with
  | nil => intro acc; simp [extract_en_loop, spec_en_collect]
  | cons l ls ih =>
    intro acc
    cases h1 : pyStartsWith (pyLower (pyStripS l)) "## english" with
    | true => simp [extract_en_loop, spec_en_collect, h1, ih]
    | false =>
      cases h2 : pyStartsWith (pyStripS l) "## " with
      | true => simp [extract_en_loop, spec_en_collect, h1, h2]
      | false =>
        cases h3 : (pyStripS l == "" || pyStartsWith (pyStripS l) "#") with
        | true => simp [extract_en_loop, spec_en_collect, h1, h2, h3, ih]
        | false =>
          cases h5 : pyStartsWith (pyStripS l) "-" with
          | true => simp [extract_en_loop, spec_en_collect, h1, h2, h3, h5, ih]
          | false => simp [extract_en_loop, spec_en_collect, h1, h2, h3, h5, ih]

theorem extract_english_eq_spec (ls : List String) :
    extract_english_keywords ls = spec_extract_english ls := by
  show extract_en_loop ls false [] = spec_extract_english ls
  induction ls with
  | nil => rfl
  | cons l ls ih =>
    cases h1 : pyStartsWith (pyLower (pyStripS l)) "## english" with
    | true =>
      simp [extract_en_loop, spec_extract_english, h1, extract_en_loop_true]
    | false => simp [extract_en_loop, spec_extract_english, h1, ih]

theorem extract_fr_loop_true :
    ∀ (ls acc : List String),
      extract_fr_loop ls true acc
        = acc.reverse ++ spec_fr_collect (!acc.isEmpty) ls := by
  intro ls
  induction ls with
  | nil => intro acc; simp [extract_fr_loop, spec_fr_collect]
  | cons l ls ih =>
    intro acc
    cases h1 : pyStartsWith (pyLower (pyStripS l)) "## fran√ßais" with
    | true => simp [extract_fr_loop, spec_fr_collect, h1, ih]
    | false =>
      cases h2 : (pyStartsWith (pyStripS l) "## " || pyStartsWith (pyStripS l) "---" ||
          (pyStripS l == "" && !acc.isEmpty)) with
      | true => simp [extract_fr_loop, spec_fr_collect, h1, h2]
      | false =>
        cases h3 : (pyStripS l == "" || pyStartsWith (pyStripS l) "#") with
        | true => simp [extract_fr_loop, spec_fr_collect, h1, h2, h3, ih]
        | false =>
          cases h5 : pyStartsWith (pyStripS l) "-" with
          | true => simp [extract_fr_loop, spec_fr_collect, h1, h2, h3, h5, ih]
          | false => simp [extract_fr_loop, spec_fr_collect, h1, h2, h3, h5, ih]

theorem extract_french_eq_spec (ls : List String) :
    extract_french_keywords ls = spec_extract_french ls := by
  show extract_fr_loop ls false [] = spec_extract_french ls
  induction ls with
  | nil => rfl
  | cons l ls ih =>
    cases h1 : pyStartsWith (pyLower (pyStripS l)) "## fran√ßais" with
    | true =>
      simp [extract_fr_loop, spec_extract_french, h1, extract_fr_loop_true]
    | false => simp [extract_fr_loop, spec_extract_french, h1, ih]

theorem spec_read_keywords_eq_nil {ls : List String}
    (h : ∀ l ∈ ls, (pyStripS l == "## Tiếng Việt") = false) :
    spec_read_keywords ls = [] := by
  induction ls with
  | nil => rfl
  | cons l ls ih =>
    simp [spec_read_keywords, h l (by simp)]
    exact ih (fun x hx => h x (by simp [hx]))

theorem spec_extract_english_eq_nil {ls : List String}
    (h : ∀ l ∈ ls, pyStartsWith (pyLower (pyStripS l)) "## english" = false) :
    spec_extract_english ls = [] := by
  induction ls with
  | nil => rfl
  | cons l ls ih =>
    simp [spec_extract_english, h l (by simp)]
    exact ih (fun x hx => h x (by simp [hx]))

theorem spec_extract_french_eq_nil {ls : List String}
    (h : ∀ l ∈ ls, pyStartsWith (pyLower (pyStripS l)) "## fran√ßais" = false) :
    spec_extract_french ls = [] := by
  induction ls with
  | nil => rfl
  | cons l ls ih =>
    simp [spec_extract_french, h l (by simp)]
    exact ih (fun x hx => h x (by simp [hx]))

/-- C7 (amended): each variant's keyword extraction returns exactly the
ordered, stripped, non-empty, non-`#` lines of its section with a
leading `-` removed, where the section runs from the variant's heading
to its break condition — any other `##` line for the main variant
(which additionally skips lines ending with `:`), any `## ` line for
the en variant, and additionally any `---` line or the first blank line
after a collected keyword for the fr variant; each returns `[]` when its
heading never occurs.  Formally each loop equals its phase-split
description `spec_…`. -/
theorem C7_keyword_extraction :
    (∀ ls, read_keywords ls = spec_read_keywords ls) ∧
    (∀ ls, extract_english_keywords ls = spec_extract_english ls) ∧
    (∀ ls, extract_french_keywords ls = spec_extract_french ls) ∧
    (∀ ls, (∀ l ∈ ls, (pyStripS l == "## Tiếng Việt") = false) →
      read_keywords ls = []) ∧
    (∀ ls, (∀ l ∈ ls, pyStartsWith (pyLower (pyStripS l)) "## english" = false) →
      extract_english_keywords ls = []) ∧
    (∀ ls, (∀ l ∈ ls, pyStartsWith (pyLower (pyStripS l)) "## fran√ßais" = false) →
      extract_french_keywords ls = []) := by
  refine ⟨read_keywords_eq_spec, extract_english_eq_spec, extract_french_eq_spec,
    ?_, ?_, ?_⟩
  · intro ls h
    rw [read_keywords_eq_spec]
    exact spec_read_keywords_eq_nil h
  · intro ls h
    rw [extract_english_eq_spec]
    exact spec_extract_english_eq_nil h
  · intro ls h
    rw [extract_french_eq_spec]
    exact spec_extract_french_eq_nil h

/-- C7 witness: the heading-absent clause applied to a file with no
Vietnamese heading. -/
theorem C7_witness : read_keywords ["# notes", "- aflatoxin"] = [] :=
  C7_keyword_extraction.2.2.2.1 ["# notes", "- aflatoxin"] (by decide)

/-- C7 counterexample: in the fr variant a blank line *inside* the
section ends collection, so the keyword `b` — a non-empty, non-header
line under the heading and before any next heading — is dropped,
refuting the claim for that variant. -/
theorem C7_counterexample :
    extract_french_keywords ["## fran√ßais", "- a", "", "- b"] = ["a"] ∧
    extract_french_keywords ["## fran√ßais", "- a", "", "- b"] ≠ ["a", "b"] := by
  decide

end ChiMai
